import Mathlib

/-!
Verification development for the FusionTables Drive export pipeline.

The definitions below are a shallow embedding of the repository's
TypeScript sources:
  * `doExport` / `saveTable`            — the export orchestrator and the
    per-table worker (server-src/do-export.ts, provided as unnamed source);
  * `logFileExportInIndexSheetWorker`   — index-sheet row generation
    (server-src/drive/log-file-export-in-index-sheet.ts);
  * `getFirstSheetWorker` and friends   — index-sheet resolution
    (server-src/drive/get-archive-index-sheet.ts).

External services (Drive, Sheets, the FusionTables endpoint) are modelled
as explicit result values handed to the embedded functions; JavaScript
numbers are modelled as exact rationals, with real-logarithm theorems
relating the embedded size bucketing to the source's
`Math.pow(2, Math.floor(Math.log(fileSize) / Math.log(2)))`.
-/

namespace FusionTablesExport

/-! ## Data model (server-src/interfaces) -/

/-- interfaces/file.ts: the Drive file handle produced by an upload. -/
structure IFile where
  id : String
  name : String
  mimeType : String
deriving DecidableEq, Repr

/-- interfaces/table.ts: a source FusionTable (permissions are opaque here). -/
structure ITable where
  id : String
  name : String
deriving DecidableEq, Repr

/-- Modelled from the spec: interfaces/style.ts is not among the provided
sources; a style is "a named visual-rendering configuration", so it is
modelled by its identifying name. -/
abbrev IStyle := String

/-- interfaces/sheet.ts: a spreadsheet handle (spreadsheetId plus the id of
the sheet inside it). -/
structure ISheet where
  spreadsheetId : String
  sheetId : Int
deriving DecidableEq, Repr

/-- Modelled from the spec: config/config.ts is not among the provided
sources. The CSV mime type used by the `fileType` ternary in
log-file-export-in-index-sheet.ts. -/
def MIME_TYPES_csv : String := "text/csv"

/-- Modelled from the spec: config/config.ts is not among the provided
sources. The spreadsheet mime type (its literal value appears in the
client-side progress renderer). -/
def MIME_TYPES_spreadsheet : String := "application/vnd.google-apps.spreadsheet"

/-- Modelled from the spec: config/config.ts is not among the provided
sources. The base URI of the visualizer; only its role as a fixed prefix
matters for the claims below. -/
def VISUALIZER_BASE_URI : String := "https://fusiontables-archive.withgoogle.com/visualizer"

/-- Modelled from the spec: config/config.ts is not among the provided
sources. The well-known name of the archive index sheet inside the archive
folder. -/
def DRIVE_ARCHIVE_INDEX_SHEET : String := "FusionTables Export Archive Index"

/-- JavaScript's `array.map((element, index) => ...)`, with an explicit
running index so that the recursion is structural. -/
def mapWithIndex (f : Nat → α → β) : Nat → List α → List β
  | _, [] => []
  | k, a :: as => f k a :: mapWithIndex f (k + 1) as

/-! ## log-file-export-in-index-sheet.ts -/

/-- A Sheets API `userEnteredValue`: either plain text or a formula. -/
inductive UserEnteredValue
  | stringValue (value : String)
  | formulaValue (value : String)
deriving DecidableEq, Repr

/-- One appended row of the index sheet (six `userEnteredValue` cells). -/
structure Row where
  values : List UserEnteredValue
deriving DecidableEq, Repr

/-- Modelled from the spec: lib/get-style-hash.ts is not among the provided
sources. The spec states each style yields "a distinct visualization link
(style-qualified)", so the hash is modelled as an injective encoding of the
style; the style's own name serves as that encoding. -/
def getStyleHash (style : IStyle) : String := style

/-- The options object handed to `logFileExportInIndexSheet` by `saveTable`
(auth and the sheet handle are irrelevant to row generation). -/
structure LogFileOptions where
  table : ITable
  driveFile : IFile
  styles : List IStyle
  hasGeometryData : Bool
  isLarge : Bool
deriving DecidableEq, Repr

/-- `https://fusiontables.google.com/DataSource?docid=${table.id}` -/
def tableLink (o : LogFileOptions) : String :=
  "https://fusiontables.google.com/DataSource?docid=" ++ o.table.id

/-- `https://drive.google.com/open?id=${driveFile.id}` -/
def fileLink (o : LogFileOptions) : String :=
  "https://drive.google.com/open?id=" ++ o.driveFile.id

/-- `driveFile.mimeType === MIME_TYPES.csv ? 'CSV' : 'Spreadsheet'` -/
def fileType (o : LogFileOptions) : String :=
  if o.driveFile.mimeType = MIME_TYPES_csv then "CSV" else "Spreadsheet"

/-- `${VISUALIZER_BASE_URI}#file=${driveFile.id}` -/
def visualizerBaseLink (o : LogFileOptions) : String :=
  VISUALIZER_BASE_URI ++ "#file=" ++ o.driveFile.id

/-- The style-qualified link built in the `styles.length > 0` branch:
`visualizerBaseLink + "&style=" + getStyleHash(style) + (isLarge ? "&large=true" : "")`. -/
def styleQualifiedLink (o : LogFileOptions) (style : IStyle) : String :=
  visualizerBaseLink o ++ "&style=" ++ getStyleHash style ++
    (if o.isLarge then "&large=true" else "")

/-- The local `createRow(visualizerLink?, index?)` closure of
`logFileExportInIndexSheetWorker`. `none` stands for an omitted (undefined)
argument; the JS falsiness test on `visualizerLink` and the
`index === 0 || index === undefined` test are reproduced exactly. -/
def createRow (o : LogFileOptions) (exportDate : String)
    (visualizerLink : Option String) (index : Option Nat) : Row :=
  let isFirstRow : Bool :=
    match index with
    | none => true
    | some i => i == 0
  let visualizationId : String :=
    match index with
    | none => ""
    | some i => toString (i + 1)
  let visualizationValue : UserEnteredValue :=
    match visualizerLink with
    | some link =>
        .formulaValue
          ("=HYPERLINK(\"" ++ link ++ "\", \"Visualization " ++ visualizationId ++ "\")")
    | none => .stringValue "Cannot visualize — no geometry found."
  { values := [
      .stringValue o.driveFile.name,
      .stringValue (if isFirstRow then tableLink o else ""),
      .stringValue (if isFirstRow then fileLink o else ""),
      .stringValue (if isFirstRow then fileType o else ""),
      visualizationValue,
      .stringValue exportDate ] }

/-- The `rows` computed by `logFileExportInIndexSheetWorker` before the
batchUpdate call: the three-way branch on `hasGeometryData` and
`styles.length`. -/
def indexSheetRows (o : LogFileOptions) (exportDate : String) : List Row :=
  if !o.hasGeometryData then
    [createRow o exportDate none none]
  else if o.styles.length > 0 then
    mapWithIndex
      (fun index style =>
        createRow o exportDate
          (some (styleQualifiedLink o style))
          (if o.styles.length > 1 then some index else none))
      0 o.styles
  else
    [createRow o exportDate
      (some (visualizerBaseLink o ++ (if o.isLarge then "&large=true" else ""))) none]

/-! ## promise-retry (the retry wrapper of §4.1) -/

/-- Modelled from the spec: the `promise-retry` package and `RETRY_OPTIONS`
(config/config.ts) are not among the provided sources. §4.1: the wrapper
invokes the operation, retries on every failure up to the attempt limit,
and on final failure propagates the last error unchanged; delays do not
affect results and are omitted. The policy is modelled by its number of
retries. `retryFrom op attempt n` runs `op` starting at `attempt` with `n`
retries left, returning how many times `op` was invoked together with the
final result. -/
def retryFrom (op : Nat → Except ε α) : Nat → Nat → Nat × Except ε α
  | attempt, 0 => (1, op attempt)
  | attempt, Nat.succ n =>
    match op attempt with
    | .ok a => (1, .ok a)
    | .error _ =>
      let rest := retryFrom op (attempt + 1) n
      (rest.fst + 1, rest.snd)

/-- Modelled from the spec: `promiseRetry(fn, RETRY_OPTIONS)` with the
policy's retry count made explicit. -/
def promiseRetry (retries : Nat) (op : Nat → Except ε α) : Nat × Except ε α :=
  retryFrom op 0 retries

/-! ## get-archive-index-sheet.ts -/

/-- `sheets_v4.Schema$SheetProperties`, restricted to the `sheetId` field
read by `getFirstSheetWorker`; `none` models an absent (undefined) id. -/
structure SheetProperties where
  sheetId : Option Int
deriving DecidableEq, Repr

/-- `sheets_v4.Schema$Sheet`, restricted to the `properties` field. -/
structure SchemaSheet where
  properties : Option SheetProperties
deriving DecidableEq, Repr

/-- The `sheets` array of the `spreadsheets.get` response. -/
structure SpreadsheetData where
  sheets : List SchemaSheet
deriving DecidableEq, Repr

/-- A rejection of a googleapis call, as inspected by the catch clause:
`error.response.data.error.code` plus a message. -/
structure ApiError where
  code : Int
  message : String
deriving DecidableEq, Repr

/-- The error thrown when the falsiness check `if (!sheetId)` fires. -/
def cannotFindSheetMessage (statusText : String) : String :=
  "Cannot find Sheet in Spreadsheet: " ++ statusText

/-- The legacy-artifact-conflict error produced for a 404 lookup. -/
def legacyConflictMessage : String :=
  "The file \"" ++ DRIVE_ARCHIVE_INDEX_SHEET ++ "\" was created by a deprecated " ++
    "version of the exporter. Please rename or remove it to allow the " ++
    "application to create a new one."

/-- A JavaScript error value as the code distinguishes them:
an `apiRejection` is a googleapis rejection carrying
`response.data.error.code`; a `plainError` is a locally constructed
`new Error(message)` with no `response` property; a `typeError` is thrown
by dereferencing a property of `undefined`. -/
inductive JsError
  | apiRejection (code : Int) (message : String)
  | plainError (message : String)
  | typeError (message : String)
deriving DecidableEq, Repr

/-- The message of the TypeError raised by the catch clause of
`getFirstSheetWorker` when it evaluates `error.response.data` on an error
that has no `response` property. -/
def catchClauseTypeErrorMessage : String :=
  "Cannot read properties of undefined (reading 'data')"

/-- The try block of `getFirstSheetWorker(auth, spreadsheetId)`: the Sheets
API call is modelled by its result. On a resolved call it reads
`sheets[0].properties.sheetId` and throws the cannot-find-sheet error when
`!sheetId` (falsy also for the id 0); an empty `sheets` array makes
`firstSheet` undefined and the `.properties` access a TypeError. -/
def getFirstSheetTryBlock (response : Except ApiError SpreadsheetData)
    (statusText : String) : Except JsError Int :=
  match response with
  | .error apiError => .error (.apiRejection apiError.code apiError.message)
  | .ok data =>
    match data.sheets.head? with
    | none => .error (.typeError "Cannot read properties of undefined (reading 'properties')")
    | some firstSheet =>
      let sheetId : Option Int :=
        match firstSheet.properties with
        | none => none
        | some props => props.sheetId
      match sheetId with
      | none => .error (.plainError (cannotFindSheetMessage statusText))
      | some sid =>
        if sid = 0 then .error (.plainError (cannotFindSheetMessage statusText))
        else .ok sid

/-- The catch clause of `getFirstSheetWorker`:
`if (error.response.data.error.code === 404) ...`. On an API rejection the
property chain resolves, and the 404 code is replaced by the
legacy-conflict error while any other code is rethrown unchanged. On an
error without a `response` property — the locally thrown cannot-find-sheet
error, or a TypeError from the try block — `error.response` is undefined
and reading `.data` of it throws a TypeError, which replaces the original
error. -/
def getFirstSheetCatchClause : JsError → JsError
  | .apiRejection code message =>
    if code = 404 then .plainError legacyConflictMessage
    else .apiRejection code message
  | .plainError _ => .typeError catchClauseTypeErrorMessage
  | .typeError _ => .typeError catchClauseTypeErrorMessage

/-- `getFirstSheetWorker(auth, spreadsheetId)`: the try block, with every
rejection routed through the catch clause. -/
def getFirstSheetWorker (response : Except ApiError SpreadsheetData)
    (statusText : String) : Except JsError Int :=
  match getFirstSheetTryBlock response statusText with
  | .ok sheetId => .ok sheetId
  | .error e => .error (getFirstSheetCatchClause e)

/-- `getFirstSheet(auth, spreadsheetId)`: the worker wrapped in
`promiseRetry(retry => worker().catch(retry), RETRY_OPTIONS)`. The
response may differ per attempt; the pair records invocation count and
final outcome. -/
def getFirstSheet (response : Nat → Except ApiError SpreadsheetData)
    (statusText : String) (retries : Nat) : Nat × Except JsError Int :=
  promiseRetry retries (fun attempt => getFirstSheetWorker (response attempt) statusText)

/-- The default export of get-archive-index-sheet.ts: `findFile` result in
hand, either create a fresh sheet (that branch's outcome is passed in as
`createResult`; nothing below depends on its internals) or resolve the
first sheet of the existing spreadsheet through the retry wrapper. -/
def getArchiveIndexSheet (findFileResult : Except JsError (Option String))
    (response : Nat → Except ApiError SpreadsheetData) (statusText : String)
    (retries : Nat) (createResult : Except JsError ISheet) : Except JsError ISheet :=
  match findFileResult with
  | .error e => .error e
  | .ok none => createResult
  | .ok (some spreadsheetId) =>
    match (getFirstSheet response statusText retries).snd with
    | .error e => .error e
    | .ok sheetId => .ok { spreadsheetId := spreadsheetId, sheetId := sheetId }

/-! ## do-export.ts: saveTable's size classification -/

/-- `Buffer.byteLength(csv.data, 'utf8') / 1024 / 1024` — the measured file
size in MB, as an exact rational. -/
def computeFileSize (byteLength : Nat) : ℚ :=
  (byteLength : ℚ) / 1024 / 1024

/-- `Math.pow(2, Math.floor(Math.log(fileSize) / Math.log(2)))`. For a
positive rational, the floor of the real `log fileSize / log 2` is
`Int.log 2 fileSize` (theorem `floor_log_ratio_eq_intLog` below), which
keeps the definition computable. For `fileSize = 0`, JavaScript evaluates
`Math.log 0` to `-Infinity` and `2 ** -Infinity` to `0`; the zero branch
records that. -/
def roundedFileSize (fileSize : ℚ) : ℚ :=
  if fileSize = 0 then 0 else 2 ^ Int.log 2 fileSize

/-- `fileSize > 20` — the isLarge classification of saveTable. -/
def isLargeFileSize (fileSize : ℚ) : Bool :=
  fileSize > 20

/-! ## do-export.ts: dispatch and the per-table worker -/

/-- The `ISaveTableOptions` record assembled in `doExport`'s
`tables.map((table, index) => limit(() => saveTable({...})))` (auth,
folderId and the sheet handle are shared values; ipHash is irrelevant to
the claims). -/
structure SaveTableOptions where
  tableId : Nat
  table : ITable
  exportId : String
  isLast : Bool
deriving DecidableEq, Repr

/-- The dispatch loop of `doExport`: one options record per table, with
`tableId := index + 1` and `isLast := index === tables.length - 1`. -/
def dispatch (exportId : String) (tables : List ITable) : List SaveTableOptions :=
  mapWithIndex
    (fun index table =>
      { tableId := index + 1
        table := table
        exportId := exportId
        isLast := index == tables.length - 1 })
    0 tables

/-- Terminal outcome of one worker's pipeline: the try block either runs to
completion or lands in the catch clause. -/
inductive Outcome
  | success
  | error
deriving DecidableEq, Repr

/-- The status string used for logging and progress. -/
def statusString : Outcome → String
  | .success => "success"
  | .error => "error"

/-- The export-log events (export-log/*.ts are fire-and-forget calls). -/
inductive LogEvent
  | exportStart (exportId : String) (tableCount : Nat)
  | tableStart (exportId : String) (tableId : Nat)
  | tableFinish (exportId : String) (tableId : Nat) (status : String) (fileSize : ℚ)
  | exportFinish (exportId : String)
deriving DecidableEq

/-- Predicate for the export-finished event. -/
def isExportFinish : LogEvent → Bool
  | .exportFinish _ => true
  | _ => false

/-- The log events emitted by one `saveTable` run: `logTableStart` first;
then, on either path out of the try/catch, `logTableFinish` with the
matching status and `logExportFinish` exactly when `isLast` — the source
repeats the `if (isLast) logExportFinish(exportId)` block in both the
success tail and the catch clause. -/
def saveTableEvents (exportId : String) (tableId : Nat) (isLast : Bool)
    (rounded : ℚ) (oc : Outcome) : List LogEvent :=
  [LogEvent.tableStart exportId tableId] ++
    [LogEvent.tableFinish exportId tableId (statusString oc) rounded] ++
    (if isLast then [LogEvent.exportFinish exportId] else [])

/-- Events of one dispatched worker, with the outcome and the rounded size
of each table supplied externally (they depend on the fetched CSV). -/
def workerEvents (oc : Nat → Outcome) (sz : Nat → ℚ) (w : SaveTableOptions) :
    List LogEvent :=
  saveTableEvents w.exportId w.tableId w.isLast (sz w.tableId) (oc w.tableId)

/-- All log events produced by the workers, in the order the workers
complete (`order` is any completion order of the dispatched list). -/
def exportLogEvents (oc : Nat → Outcome) (sz : Nat → ℚ)
    (order : List SaveTableOptions) : List LogEvent :=
  (order.map (workerEvents oc sz)).flatten

/-- One record of the progress store
(export-progress `updateTableExportProgress`); the store key uses
`table.id`, not the numeric log id. -/
structure ProgressEntry where
  exportId : String
  tableId : String
  status : String
deriving DecidableEq, Repr

/-- The progress-store writes of one worker: exactly one terminal entry,
written in the success tail or in the catch clause. -/
def workerProgressWrites (oc : Nat → Outcome) (w : SaveTableOptions) :
    List ProgressEntry :=
  [{ exportId := w.exportId, tableId := w.table.id, status := statusString (oc w.tableId) }]

/-- The shared-resource setup collaborators awaited by `doExport` before
dispatch, modelled by their results. -/
structure ExportEnv where
  getArchiveFolder : Except String String
  getDriveUploadFolder : String → Except String String
  getArchiveIndexSheetResult : String → Except String ISheet
  insertExportRowInIndexSheet : ISheet → String → Except String Unit

/-- The default export of do-export.ts: resolve the archive folder, then
(`Promise.all`) the upload folder and the index sheet, then append the
export-began row; any failure rethrows and nothing is dispatched. On
success the table workers are dispatched and the folder id is returned. -/
def doExport (env : ExportEnv) (exportId : String) (tables : List ITable) :
    Except String (String × List SaveTableOptions) :=
  match env.getArchiveFolder with
  | .error e => .error e
  | .ok archiveFolderId =>
    match env.getDriveUploadFolder archiveFolderId,
        env.getArchiveIndexSheetResult archiveFolderId with
    | .error e, _ => .error e
    | .ok _, .error e => .error e
    | .ok folderId, .ok archiveSheet =>
      match env.insertExportRowInIndexSheet archiveSheet folderId with
      | .error e => .error e
      | .ok _ => .ok (folderId, dispatch exportId tables)

/-- The workers dispatched by a `doExport` outcome (none on rejection). -/
def dispatchedWorkers (result : Except String (String × List SaveTableOptions)) :
    List SaveTableOptions :=
  match result with
  | .ok (_, workers) => workers
  | .error _ => []

/-- All progress-store writes of an export: workers are the only writers. -/
def exportProgressWrites (result : Except String (String × List SaveTableOptions))
    (oc : Nat → Outcome) : List ProgressEntry :=
  ((dispatchedWorkers result).map (workerProgressWrites oc)).flatten

/-- Success of all four setup steps of `doExport`, with their values. -/
def setupOk (env : ExportEnv) : Prop :=
  ∃ archiveFolderId folderId sheet,
    env.getArchiveFolder = .ok archiveFolderId ∧
    env.getDriveUploadFolder archiveFolderId = .ok folderId ∧
    env.getArchiveIndexSheetResult archiveFolderId = .ok sheet ∧
    env.insertExportRowInIndexSheet sheet folderId = .ok ()

/-! ## do-export.ts: the concurrency limiter -/

/-- The externally visible per-table steps of `saveTable`, in pipeline
order. -/
inductive StepKind
  | fetchCsv
  | uploadFile
  | fetchStyles
  | logIndexSheet
  | addFilePermissions
  | updateProgress
deriving DecidableEq, Repr

/-- One step of one worker; `insideLimiter` is true when the step executes
inside the closure handed to the `pLimit(1)` limiter. -/
structure Step where
  kind : StepKind
  tableIndex : Nat
  insideLimiter : Bool
deriving DecidableEq, Repr

/-- The step kinds of one `saveTable` body. -/
def saveTableStepKinds : List StepKind :=
  [.fetchCsv, .uploadFile, .fetchStyles, .logIndexSheet, .addFilePermissions,
    .updateProgress]

/-- The steps of the worker dispatched for table `index`. In the source the
dispatch is `limit(() => saveTable({...}))`: the closure handed to the
limiter is the whole `saveTable` call, so every step of the body carries
`insideLimiter := true`. -/
def dispatchedWorkerSteps (index : Nat) : List Step :=
  saveTableStepKinds.map
    (fun kind => { kind := kind, tableIndex := index, insideLimiter := true })

/-- Whether two steps of the export may execute concurrently: `pLimit(1)`
admits at most one guarded closure at a time, so steps of distinct tables
can overlap only if at least one of them runs outside the limiter. -/
def canOverlap (s t : Step) : Bool :=
  decide (s.tableIndex ≠ t.tableIndex) && !(s.insideLimiter && t.insideLimiter)

/-! ## Concrete fixtures used as witnesses and counterexamples -/

/-- A CSV upload result. -/
def exampleFileA : IFile :=
  { id := "file-a", name := "Table A", mimeType := "text/csv" }

/-- A source table. -/
def exampleTableA : ITable := { id := "ft-a", name := "Table A" }

/-- A second source table. -/
def exampleTableB : ITable := { id := "ft-b", name := "Table B" }

/-- A table without geometry data but with three styles. -/
def exampleOptionsNoGeometry : LogFileOptions :=
  { table := exampleTableA, driveFile := exampleFileA,
    styles := ["style-1", "style-2", "style-3"], hasGeometryData := false,
    isLarge := false }

/-- A table with geometry data and exactly one style. -/
def exampleOptionsOneStyle : LogFileOptions :=
  { table := exampleTableA, driveFile := exampleFileA, styles := ["style-1"],
    hasGeometryData := true, isLarge := false }

/-- A table with geometry data and two styles. -/
def exampleOptionsTwoStyles : LogFileOptions :=
  { table := exampleTableA, driveFile := exampleFileA,
    styles := ["style-1", "style-2"], hasGeometryData := true, isLarge := false }

/-- All workers end in the success outcome. -/
def allSuccess : Nat → Outcome := fun _ => Outcome.success

/-- A trivial size assignment. -/
def zeroSizes : Nat → ℚ := fun _ => 0

/-- An environment whose archive-folder resolution fails. -/
def failingSetupEnv : ExportEnv :=
  { getArchiveFolder := .error "Drive unavailable"
    getDriveUploadFolder := fun _ => .ok "folder-1"
    getArchiveIndexSheetResult := fun _ => .ok { spreadsheetId := "ss-1", sheetId := 1 }
    insertExportRowInIndexSheet := fun _ _ => .ok () }

/-- A deterministic 404 rejection of the spreadsheet lookup. -/
def notFoundResponse : Except ApiError SpreadsheetData :=
  .error { code := 404, message := "Not Found" }

/-- A spreadsheet whose first (and only) sheet has the sheet id 0. -/
def sheetIdZeroData : SpreadsheetData :=
  { sheets := [{ properties := some { sheetId := some 0 } }] }

/-! # Theorems

Helper lemmas first, then one theorem per claim (with its witness or
counterexample). -/

theorem length_mapWithIndex (f : Nat → α → β) (k : Nat) (l : List α) :
    (mapWithIndex f k l).length = l.length := by
  induction l generalizing k with
  | nil => rfl
  | cons a as ih => simp [mapWithIndex, ih]

theorem getElem?_mapWithIndex (f : Nat → α → β) (k : Nat) (l : List α) (i : Nat) :
    (mapWithIndex f k l)[i]? = (l[i]?).map (f (k + i)) := by
  induction l generalizing k i with
  | nil => simp [mapWithIndex]
  | cons a as ih =>
    cases i with
    | zero => simp [mapWithIndex]
    | succ j =>
      simp only [mapWithIndex, List.getElem?_cons_succ, ih (k + 1) j]
      have hk : k + 1 + j = k + (j + 1) := by omega
      rw [hk]

theorem mem_mapWithIndex {f : Nat → α → β} {k : Nat} {l : List α} {b : β} :
    b ∈ mapWithIndex f k l ↔ ∃ i, ∃ h : i < l.length, b = f (k + i) (l.get ⟨i, h⟩) := by
  induction l generalizing k with
  | nil => simp [mapWithIndex]
  | cons a as ih =>
    simp only [mapWithIndex, List.mem_cons, ih]
    constructor
    · rintro (rfl | ⟨i, hi, rfl⟩)
      · exact ⟨0, by simp, by simp⟩
      · refine ⟨i + 1, by simpa using hi, ?_⟩
        have hk : k + 1 + i = k + (i + 1) := by omega
        simp [← hk]
    · rintro ⟨i, hi, rfl⟩
      cases i with
      | zero => left; simp
      | succ j =>
        right
        refine ⟨j, by simpa using hi, ?_⟩
        have hk : k + 1 + j = k + (j + 1) := by omega
        simp [hk]

theorem promiseRetry_const_error (retries : Nat) (op : Nat → Except ε α) (e : ε)
    (h : ∀ k, op k = .error e) :
    promiseRetry retries op = (retries + 1, .error e) := by
  suffices hgen : ∀ n k, retryFrom op k n = (n + 1, .error e) from hgen retries 0
  intro n
  induction n with
  | zero => intro k; simp [retryFrom, h k]
  | succ m ih => intro k; simp [retryFrom, h k, ih (k + 1)]

/-- C2 (counterexample): the claim says the upload steps of two distinct
tables may overlap, unconstrained by the degree-1 limiter. In the code the
limiter wraps the whole `saveTable` closure, so both dispatched upload
steps carry `insideLimiter := true` and `canOverlap` rejects the pair. -/
theorem claim_C2_counterexample :
    ({ kind := .uploadFile, tableIndex := 0, insideLimiter := true } : Step) ∈
        dispatchedWorkerSteps 0 ∧
    ({ kind := .uploadFile, tableIndex := 1, insideLimiter := true } : Step) ∈
        dispatchedWorkerSteps 1 ∧
    canOverlap { kind := .uploadFile, tableIndex := 0, insideLimiter := true }
        { kind := .uploadFile, tableIndex := 1, insideLimiter := true } = false := by
  decide

/-- C2 (amended): the degree-1 limiter serializes the entire per-table
worker, not only the FusionTables fetch: every step of every dispatched
worker runs inside the limiter, so no two steps of distinct tables — nor
of the same table — may overlap. -/
theorem claim_C2_whole_worker_serialized (i j : Nat) (s t : Step)
    (hs : s ∈ dispatchedWorkerSteps i) (ht : t ∈ dispatchedWorkerSteps j) :
    s.insideLimiter = true ∧ t.insideLimiter = true ∧ canOverlap s t = false := by
  rcases List.mem_map.mp hs with ⟨ks, _, rfl⟩
  rcases List.mem_map.mp ht with ⟨kt, _, rfl⟩
  refine ⟨rfl, rfl, ?_⟩
  simp [canOverlap]

/-- C2 (witness for the amended theorem): the fetch step of table 0 and the
upload step of table 1 are both inside the limiter and cannot overlap. -/
theorem claim_C2_whole_worker_serialized_witness :
    ({ kind := .fetchCsv, tableIndex := 0, insideLimiter := true } : Step) ∈
        dispatchedWorkerSteps 0 ∧
    ({ kind := .uploadFile, tableIndex := 1, insideLimiter := true } : Step) ∈
        dispatchedWorkerSteps 1 ∧
    (({ kind := .fetchCsv, tableIndex := 0, insideLimiter := true } : Step).insideLimiter = true ∧
      ({ kind := .uploadFile, tableIndex := 1, insideLimiter := true } : Step).insideLimiter = true ∧
      canOverlap { kind := .fetchCsv, tableIndex := 0, insideLimiter := true }
        { kind := .uploadFile, tableIndex := 1, insideLimiter := true } = false) :=
  ⟨by decide, by decide,
    claim_C2_whole_worker_serialized 0 1 _ _ (by decide) (by decide)⟩

/-- C4 (counterexample): a geometry-free table with three styles yields one
row, but its visualization cell is not empty — it holds the fixed
cannot-visualize message. -/
theorem claim_C4_counterexample :
    (indexSheetRows exampleOptionsNoGeometry "2019-12-03").length = 1 ∧
    ((indexSheetRows exampleOptionsNoGeometry "2019-12-03").map
        (fun r => r.values[4]?)) =
      [some (.stringValue "Cannot visualize — no geometry found.")] ∧
    ¬ ((indexSheetRows exampleOptionsNoGeometry "2019-12-03").map
        (fun r => r.values[4]?)) = [some (.stringValue "")] := by
  refine ⟨rfl, rfl, ?_⟩
  decide

/-- C4 (amended): for every table whose content has no geometry data,
exactly one index-sheet row is generated, independent of the number of
styles, and its visualization cell holds the fixed string "Cannot
visualize — no geometry found." (not an empty cell). -/
theorem claim_C4_no_geometry_single_row (o : LogFileOptions) (exportDate : String)
    (h : o.hasGeometryData = false) :
    indexSheetRows o exportDate =
      [{ values := [
          .stringValue o.driveFile.name,
          .stringValue (tableLink o),
          .stringValue (fileLink o),
          .stringValue (fileType o),
          .stringValue "Cannot visualize — no geometry found.",
          .stringValue exportDate ] }] ∧
    (indexSheetRows o exportDate).length = 1 := by
  constructor
  · simp [indexSheetRows, h, createRow]
  · simp [indexSheetRows, h]

/-- C4 (witness): the amended theorem evaluated on the three-style fixture. -/
theorem claim_C4_no_geometry_single_row_witness :
    exampleOptionsNoGeometry.hasGeometryData = false ∧
    (indexSheetRows exampleOptionsNoGeometry "2019-12-03" =
      [{ values := [
          .stringValue exampleOptionsNoGeometry.driveFile.name,
          .stringValue (tableLink exampleOptionsNoGeometry),
          .stringValue (fileLink exampleOptionsNoGeometry),
          .stringValue (fileType exampleOptionsNoGeometry),
          .stringValue "Cannot visualize — no geometry found.",
          .stringValue "2019-12-03" ] }] ∧
      (indexSheetRows exampleOptionsNoGeometry "2019-12-03").length = 1) :=
  ⟨rfl, claim_C4_no_geometry_single_row exampleOptionsNoGeometry "2019-12-03" rfl⟩

/-- C3 (counterexample): for a geometry table with exactly one style, the
generated row's visualization link is NOT the bare base visualizer URI —
it carries the `&style=` qualifier of that style. -/
theorem claim_C3_counterexample :
    ((indexSheetRows exampleOptionsOneStyle "2019-12-03").map
        (fun r => r.values[4]?)) =
      [some (.formulaValue
        ("=HYPERLINK(\"" ++ visualizerBaseLink exampleOptionsOneStyle ++
          "&style=style-1" ++ "\", \"Visualization \")"))] ∧
    ¬ ((indexSheetRows exampleOptionsOneStyle "2019-12-03").map
        (fun r => r.values[4]?)) =
      [some (.formulaValue
        ("=HYPERLINK(\"" ++ visualizerBaseLink exampleOptionsOneStyle ++
          "\", \"Visualization \")"))] := by
  constructor
  · rfl
  · decide

/-- C3 (amended): for every table with geometry data and exactly one style,
`logFileExportInIndexSheet` generates a single index-sheet row; its
visualization link IS style-qualified (the base visualizer URI followed by
the `&style=` hash of the one style), and what is omitted is only the
sequential visualization number in the link label. -/
theorem claim_C3_one_style_qualified_link (o : LogFileOptions) (exportDate : String)
    (s : IStyle) (hg : o.hasGeometryData = true) (hs : o.styles = [s]) :
    indexSheetRows o exportDate =
      [{ values := [
          .stringValue o.driveFile.name,
          .stringValue (tableLink o),
          .stringValue (fileLink o),
          .stringValue (fileType o),
          .formulaValue ("=HYPERLINK(\"" ++ styleQualifiedLink o s ++
            "\", \"Visualization \")"),
          .stringValue exportDate ] }] ∧
    styleQualifiedLink o s =
      visualizerBaseLink o ++ "&style=" ++ getStyleHash s ++
        (if o.isLarge then "&large=true" else "") := by
  constructor
  · simp only [indexSheetRows, hg, hs, mapWithIndex, createRow]
    norm_num
    rw [String.append_assoc]
    congr 1
  · rfl

/-- C3 (witness): the amended theorem evaluated on the one-style fixture. -/
theorem claim_C3_one_style_qualified_link_witness :
    exampleOptionsOneStyle.hasGeometryData = true ∧
    exampleOptionsOneStyle.styles = ["style-1"] ∧
    (indexSheetRows exampleOptionsOneStyle "2019-12-03" =
      [{ values := [
          .stringValue exampleOptionsOneStyle.driveFile.name,
          .stringValue (tableLink exampleOptionsOneStyle),
          .stringValue (fileLink exampleOptionsOneStyle),
          .stringValue (fileType exampleOptionsOneStyle),
          .formulaValue ("=HYPERLINK(\"" ++
            styleQualifiedLink exampleOptionsOneStyle "style-1" ++
            "\", \"Visualization \")"),
          .stringValue "2019-12-03" ] }] ∧
      styleQualifiedLink exampleOptionsOneStyle "style-1" =
        visualizerBaseLink exampleOptionsOneStyle ++ "&style=" ++
          getStyleHash "style-1" ++
          (if exampleOptionsOneStyle.isLarge then "&large=true" else "")) :=
  ⟨rfl, rfl,
    claim_C3_one_style_qualified_link exampleOptionsOneStyle "2019-12-03" "style-1"
      rfl rfl⟩

/-- C6 (counterexample): the claim says the 404 lookup is not retried. With
a retry policy of 2 retries and a deterministic 404 response, the lookup
worker is invoked 3 times — not once — before the conflict error
propagates. -/
theorem claim_C6_counterexample :
    (getFirstSheet (fun _ => notFoundResponse) "Not Found" 2).fst = 3 ∧
    (getFirstSheet (fun _ => notFoundResponse) "Not Found" 2).snd =
      .error (.plainError legacyConflictMessage) ∧
    (getFirstSheet (fun _ => notFoundResponse) "Not Found" 2).fst ≠ 1 := by
  refine ⟨rfl, rfl, ?_⟩
  decide

/-- C6 (amended): when the spreadsheet lookup rejects with a 404, the
worker maps the rejection to the legacy-artifact-conflict error, but that
failing lookup IS retried like any other failure: under a policy of
`retries` retries the worker runs `retries + 1` times, and only then does
the conflict error propagate (fatally) out of the wrapper. -/
theorem claim_C6_conflict_error_retried (retries : Nat) (statusText msg : String) :
    getFirstSheetWorker (.error { code := 404, message := msg }) statusText =
      .error (.plainError legacyConflictMessage) ∧
    getFirstSheet (fun _ => .error { code := 404, message := msg }) statusText retries =
      (retries + 1, .error (.plainError legacyConflictMessage)) := by
  constructor
  · simp [getFirstSheetWorker, getFirstSheetTryBlock, getFirstSheetCatchClause]
  · exact promiseRetry_const_error retries _ _
      (fun k => by simp [getFirstSheetWorker, getFirstSheetTryBlock, getFirstSheetCatchClause])

/-- C9 (counterexample): on a spreadsheet whose first sheet has the sheet
id 0, the error that leaves the first-sheet lookup is the catch clause's
TypeError, not the cannot-find-sheet error the claim names: the catch
clause dereferences `error.response.data` on the locally thrown plain
error. -/
theorem claim_C9_counterexample :
    getFirstSheetWorker (.ok sheetIdZeroData) "OK" =
      .error (.typeError catchClauseTypeErrorMessage) ∧
    getFirstSheetWorker (.ok sheetIdZeroData) "OK" ≠
      .error (.plainError (cannotFindSheetMessage "OK")) := by
  refine ⟨rfl, ?_⟩
  simp [getFirstSheetWorker, getFirstSheetTryBlock, getFirstSheetCatchClause,
    sheetIdZeroData]

/-- C9 (amended): for a spreadsheet whose first sheet has the sheet id 0,
the `!sheetId` falsiness check does treat 0 as absent and throws the
cannot-find-sheet error inside the try block — but the catch clause's
unguarded `error.response.data` dereference converts it into a TypeError
before it leaves the worker. The lookup therefore fails with that
TypeError (never returning the id 0), and the index-sheet resolver fails
for such a spreadsheet instead of returning sheetId 0. -/
theorem claim_C9_sheet_id_zero_fails (firstSheet : SchemaSheet)
    (rest : List SchemaSheet) (statusText : String) (retries : Nat)
    (hprops : firstSheet.properties = some { sheetId := some 0 }) :
    getFirstSheetTryBlock (.ok { sheets := firstSheet :: rest }) statusText =
      .error (.plainError (cannotFindSheetMessage statusText)) ∧
    getFirstSheetWorker (.ok { sheets := firstSheet :: rest }) statusText =
      .error (.typeError catchClauseTypeErrorMessage) ∧
    (∀ sid : Int,
      getFirstSheetWorker (.ok { sheets := firstSheet :: rest }) statusText ≠ .ok sid) ∧
    (∀ (spreadsheetId : String) (createResult : Except JsError ISheet),
      getArchiveIndexSheet (.ok (some spreadsheetId))
          (fun _ => .ok { sheets := firstSheet :: rest }) statusText retries
          createResult =
        .error (.typeError catchClauseTypeErrorMessage)) := by
  have htry : getFirstSheetTryBlock (.ok { sheets := firstSheet :: rest }) statusText =
      .error (.plainError (cannotFindSheetMessage statusText)) := by
    simp [getFirstSheetTryBlock, hprops]
  have hworker : getFirstSheetWorker (.ok { sheets := firstSheet :: rest }) statusText =
      .error (.typeError catchClauseTypeErrorMessage) := by
    simp [getFirstSheetWorker, htry, getFirstSheetCatchClause]
  refine ⟨htry, hworker, ?_, ?_⟩
  · intro sid
    simp [hworker]
  · intro spreadsheetId createResult
    have hrun : getFirstSheet (fun _ => .ok { sheets := firstSheet :: rest })
        statusText retries =
        (retries + 1, .error (.typeError catchClauseTypeErrorMessage)) :=
      promiseRetry_const_error retries _ _ (fun k => hworker)
    simp [getArchiveIndexSheet, hrun]

/-- C9 (witness): the amended theorem evaluated on a one-sheet spreadsheet
whose sheet id is 0. -/
theorem claim_C9_sheet_id_zero_fails_witness :
    ({ properties := some { sheetId := some 0 } } : SchemaSheet).properties =
      some { sheetId := some 0 } ∧
    (getFirstSheetTryBlock
        (.ok { sheets := ({ properties := some { sheetId := some 0 } } : SchemaSheet) :: [] })
        "OK" = .error (.plainError (cannotFindSheetMessage "OK")) ∧
      getFirstSheetWorker
        (.ok { sheets := ({ properties := some { sheetId := some 0 } } : SchemaSheet) :: [] })
        "OK" = .error (.typeError catchClauseTypeErrorMessage) ∧
      (∀ sid : Int,
        getFirstSheetWorker
            (.ok { sheets := ({ properties := some { sheetId := some 0 } } : SchemaSheet) :: [] })
            "OK" ≠ .ok sid) ∧
      (∀ (spreadsheetId : String) (createResult : Except JsError ISheet),
        getArchiveIndexSheet (.ok (some spreadsheetId))
            (fun _ => .ok { sheets := ({ properties := some { sheetId := some 0 } } : SchemaSheet) :: [] })
            "OK" 2 createResult =
          .error (.typeError catchClauseTypeErrorMessage))) :=
  ⟨rfl, claim_C9_sheet_id_zero_fails { properties := some { sheetId := some 0 } }
    [] "OK" 2 rfl⟩

/-- C7: if any setup step of `doExport` fails — archive folder, upload
folder, index sheet, or the export-began row — the orchestrator rejects,
no table worker is dispatched, and no progress-store entry is written; and
whichever single step fails, its error is the one `doExport` rejects
with. -/
theorem claim_C7_setup_failure_dispatches_nothing (env : ExportEnv)
    (exportId : String) (tables : List ITable) (h : ¬ setupOk env) :
    (∃ e, doExport env exportId tables = .error e) ∧
    dispatchedWorkers (doExport env exportId tables) = [] ∧
    (∀ oc, exportProgressWrites (doExport env exportId tables) oc = []) ∧
    (∀ e, env.getArchiveFolder = .error e → doExport env exportId tables = .error e) ∧
    (∀ aid e, env.getArchiveFolder = .ok aid →
      env.getDriveUploadFolder aid = .error e →
      doExport env exportId tables = .error e) ∧
    (∀ aid fid e, env.getArchiveFolder = .ok aid →
      env.getDriveUploadFolder aid = .ok fid →
      env.getArchiveIndexSheetResult aid = .error e →
      doExport env exportId tables = .error e) ∧
    (∀ aid fid sheet e, env.getArchiveFolder = .ok aid →
      env.getDriveUploadFolder aid = .ok fid →
      env.getArchiveIndexSheetResult aid = .ok sheet →
      env.insertExportRowInIndexSheet sheet fid = .error e →
      doExport env exportId tables = .error e) := by
  have herr : ∃ e, doExport env exportId tables = .error e := by
    cases ha : env.getArchiveFolder with
    | error e => exact ⟨e, by simp [doExport, ha]⟩
    | ok aid =>
      cases hu : env.getDriveUploadFolder aid with
      | error e => exact ⟨e, by simp [doExport, ha, hu]⟩
      | ok fid =>
        cases hi : env.getArchiveIndexSheetResult aid with
        | error e => exact ⟨e, by simp [doExport, ha, hu, hi]⟩
        | ok sheet =>
          cases hr : env.insertExportRowInIndexSheet sheet fid with
          | error e => exact ⟨e, by simp [doExport, ha, hu, hi, hr]⟩
          | ok u =>
            exact absurd ⟨aid, fid, sheet, ha, hu, hi, by simpa using hr⟩ h
  obtain ⟨e0, he0⟩ := herr
  refine ⟨⟨e0, he0⟩, by simp [dispatchedWorkers, he0],
    fun oc => by simp [exportProgressWrites, dispatchedWorkers, he0],
    ?_, ?_, ?_, ?_⟩
  · intro e ha
    simp [doExport, ha]
  · intro aid e ha hu
    simp [doExport, ha, hu]
  · intro aid fid e ha hu hi
    simp [doExport, ha, hu, hi]
  · intro aid fid sheet e ha hu hi hr
    simp [doExport, ha, hu, hi, hr]

/-- C7 (witness): the theorem evaluated on an environment whose
archive-folder resolution fails. -/
theorem claim_C7_setup_failure_dispatches_nothing_witness :
    (¬ setupOk failingSetupEnv) ∧
    ((∃ e, doExport failingSetupEnv "export-1" [exampleTableA] = .error e) ∧
      dispatchedWorkers (doExport failingSetupEnv "export-1" [exampleTableA]) = [] ∧
      (∀ oc, exportProgressWrites (doExport failingSetupEnv "export-1" [exampleTableA]) oc = []) ∧
      (∀ e, failingSetupEnv.getArchiveFolder = .error e →
        doExport failingSetupEnv "export-1" [exampleTableA] = .error e) ∧
      (∀ aid e, failingSetupEnv.getArchiveFolder = .ok aid →
        failingSetupEnv.getDriveUploadFolder aid = .error e →
        doExport failingSetupEnv "export-1" [exampleTableA] = .error e) ∧
      (∀ aid fid e, failingSetupEnv.getArchiveFolder = .ok aid →
        failingSetupEnv.getDriveUploadFolder aid = .ok fid →
        failingSetupEnv.getArchiveIndexSheetResult aid = .error e →
        doExport failingSetupEnv "export-1" [exampleTableA] = .error e) ∧
      (∀ aid fid sheet e, failingSetupEnv.getArchiveFolder = .ok aid →
        failingSetupEnv.getDriveUploadFolder aid = .ok fid →
        failingSetupEnv.getArchiveIndexSheetResult aid = .ok sheet →
        failingSetupEnv.insertExportRowInIndexSheet sheet fid = .error e →
        doExport failingSetupEnv "export-1" [exampleTableA] = .error e)) :=
  have hno : ¬ setupOk failingSetupEnv := by
    rintro ⟨aid, fid, sheet, ha, -, -, -⟩
    simp [failingSetupEnv] at ha
  ⟨hno, claim_C7_setup_failure_dispatches_nothing failingSetupEnv "export-1"
    [exampleTableA] hno⟩

theorem intLog_ratCast (s : ℚ) (hs : 0 < s) : Int.log 2 ((s : ℝ)) = Int.log 2 s := by
  have hb : 1 < (2 : ℕ) := by norm_num
  have hrr : (0 : ℝ) < (s : ℝ) := by exact_mod_cast hs
  apply le_antisymm
  · have h2 : s < (2 : ℚ) ^ (Int.log 2 s + 1) := Int.lt_zpow_succ_log_self hb s
    have h2r : (s : ℝ) < ((2 : ℕ) : ℝ) ^ (Int.log 2 s + 1) := by
      calc (s : ℝ) < (((2 : ℚ) ^ (Int.log 2 s + 1) : ℚ) : ℝ) := by exact_mod_cast h2
      _ = ((2 : ℕ) : ℝ) ^ (Int.log 2 s + 1) := by push_cast; ring
    have := (Int.lt_zpow_iff_log_lt hb hrr).mp h2r
    omega
  · rw [← Int.zpow_le_iff_le_log hb hrr]
    have h1 : (2 : ℚ) ^ Int.log 2 s ≤ s := Int.zpow_log_le_self hb hs
    calc ((2 : ℕ) : ℝ) ^ Int.log 2 s = (((2 : ℚ) ^ Int.log 2 s : ℚ) : ℝ) := by
          push_cast; ring
    _ ≤ (s : ℝ) := by exact_mod_cast h1

/-- The exponent JavaScript computes, `Math.floor(Math.log s / Math.log 2)`,
agrees with the integer logarithm used in `roundedFileSize`. -/
theorem floor_log_ratio_eq_intLog (s : ℚ) (hs : 0 < s) :
    ⌊Real.log (s : ℝ) / Real.log 2⌋ = Int.log 2 s := by
  have hlogb : Real.logb 2 (s : ℝ) = Real.log (s : ℝ) / Real.log 2 := rfl
  rw [← hlogb]
  have hfloor := Real.floor_logb_natCast (b := 2) (r := (s : ℝ)) (by positivity)
  rw [intLog_ratCast s hs] at hfloor
  simpa using hfloor

theorem intLog_two_nine : Int.log 2 (9 : ℚ) = 3 := by
  have h9 : ((9 : ℕ) : ℚ) = (9 : ℚ) := by norm_num
  rw [← h9, Int.log_natCast]
  exact_mod_cast Nat.log_eq_of_pow_le_of_lt_pow (by norm_num) (by norm_num)

theorem intLog_two_sixteen : Int.log 2 (16 : ℚ) = 4 := by
  have h16 : ((16 : ℕ) : ℚ) = (16 : ℚ) := by norm_num
  rw [← h16, Int.log_natCast]
  exact_mod_cast Nat.log_eq_of_pow_le_of_lt_pow (by norm_num) (by norm_num)

/-- C8: for every positive measured size `s` (in MB), the reported rounded
size is `2 ^ ⌊log s / log 2⌋` — exactly the quantity the source computes —
and this is the greatest power of two not exceeding `s`; in particular a
measured size of 9 MB is reported as 8 and a measured size of exactly
16 MB is reported as 16. -/
theorem claim_C8_rounded_size_power_of_two (s : ℚ) (hs : 0 < s) :
    ((roundedFileSize s : ℚ) : ℝ) = 2 ^ ⌊Real.log (s : ℝ) / Real.log 2⌋ ∧
    roundedFileSize s ≤ s ∧ s < 2 * roundedFileSize s ∧
    (∃ k : ℤ, roundedFileSize s = 2 ^ k) ∧
    roundedFileSize 9 = 8 ∧ roundedFileSize 16 = 16 := by
  have hb : 1 < (2 : ℕ) := by norm_num
  have hrw : roundedFileSize s = 2 ^ Int.log 2 s := by
    simp [roundedFileSize, hs.ne']
  refine ⟨?_, ?_, ?_, ⟨Int.log 2 s, hrw⟩, ?_, ?_⟩
  · rw [floor_log_ratio_eq_intLog s hs, hrw]
    push_cast
    ring
  · rw [hrw]
    exact_mod_cast Int.zpow_log_le_self hb hs
  · rw [hrw]
    have h2 : s < (2 : ℚ) ^ (Int.log 2 s + 1) := Int.lt_zpow_succ_log_self hb s
    calc s < (2 : ℚ) ^ (Int.log 2 s + 1) := h2
    _ = 2 * 2 ^ Int.log 2 s := by
        rw [zpow_add_one₀ (by norm_num : (2 : ℚ) ≠ 0)]
        ring
  · rw [show roundedFileSize 9 = 2 ^ Int.log 2 (9 : ℚ) by simp [roundedFileSize],
      intLog_two_nine]
    norm_num
  · rw [show roundedFileSize 16 = 2 ^ Int.log 2 (16 : ℚ) by simp [roundedFileSize],
      intLog_two_sixteen]
    norm_num

/-- C8 (witness): the theorem evaluated at a measured size of 9 MB. -/
theorem claim_C8_rounded_size_power_of_two_witness :
    (0 : ℚ) < 9 ∧
    (((roundedFileSize 9 : ℚ) : ℝ) = 2 ^ ⌊Real.log ((9 : ℚ) : ℝ) / Real.log 2⌋ ∧
      roundedFileSize 9 ≤ 9 ∧ (9 : ℚ) < 2 * roundedFileSize 9 ∧
      (∃ k : ℤ, roundedFileSize 9 = 2 ^ k) ∧
      roundedFileSize 9 = 8 ∧ roundedFileSize 16 = 16) :=
  ⟨by norm_num, claim_C8_rounded_size_power_of_two 9 (by norm_num)⟩

/-- C10: for a measured size strictly between 0 and 1 MB the reported
rounded size is a strictly positive non-integer fraction below 1, and a
measured size of exactly 0 is reported as 0 (JavaScript's
`2 ** Math.floor(Math.log 0 / Math.log 2) = 2 ** -Infinity = 0`). -/
theorem claim_C10_sub_megabyte_fraction (s : ℚ) (h0 : 0 < s) (h1 : s < 1) :
    0 < roundedFileSize s ∧ roundedFileSize s < 1 ∧
    (¬ ∃ n : ℤ, roundedFileSize s = (n : ℚ)) ∧
    roundedFileSize 0 = 0 := by
  have hb : 1 < (2 : ℕ) := by norm_num
  have hrw : roundedFileSize s = 2 ^ Int.log 2 s := by
    simp [roundedFileSize, h0.ne']
  have hneg : Int.log 2 s < 0 := by
    have hlt : s < ((2 : ℕ) : ℚ) ^ (0 : ℤ) := by simpa using h1
    simpa using (Int.lt_zpow_iff_log_lt hb h0).mp hlt
  have hpos : (0 : ℚ) < 2 ^ Int.log 2 s := zpow_pos (by norm_num) _
  have hlt1 : (2 : ℚ) ^ Int.log 2 s < 1 := by
    have hle : (2 : ℚ) ^ Int.log 2 s ≤ 2 ^ (-1 : ℤ) :=
      zpow_le_zpow_right₀ (by norm_num) (by omega)
    have : ((2 : ℚ) ^ (-1 : ℤ)) = 1 / 2 := by norm_num
    rw [this] at hle
    linarith
  refine ⟨hrw ▸ hpos, hrw ▸ hlt1, ?_, by simp [roundedFileSize]⟩
  rintro ⟨n, hn⟩
  rw [hrw] at hn
  have hn0 : (0 : ℚ) < (n : ℚ) := hn ▸ hpos
  have hn1 : ((n : ℚ)) < 1 := hn ▸ hlt1
  have h0' : 0 < n := by exact_mod_cast hn0
  have h1' : n < 1 := by exact_mod_cast hn1
  omega

/-- C10 (witness): the theorem evaluated at a measured size of 1/2 MB. -/
theorem claim_C10_sub_megabyte_fraction_witness :
    (0 : ℚ) < 1 / 2 ∧ (1 / 2 : ℚ) < 1 ∧
    (0 < roundedFileSize (1 / 2) ∧ roundedFileSize (1 / 2) < 1 ∧
      (¬ ∃ n : ℤ, roundedFileSize (1 / 2) = (n : ℚ)) ∧
      roundedFileSize 0 = 0) :=
  ⟨by norm_num, by norm_num,
    claim_C10_sub_megabyte_fraction (1 / 2) (by norm_num) (by norm_num)⟩

theorem string_append_left_cancel {u s t : String} (h : u ++ s = u ++ t) : s = t := by
  have hd := congrArg String.data h
  simp only [String.data_append] at hd
  exact String.ext (List.append_cancel_left hd)

theorem string_append_right_cancel {s t u : String} (h : s ++ u = t ++ u) : s = t := by
  have hd := congrArg String.data h
  simp only [String.data_append] at hd
  exact String.ext (List.append_cancel_right hd)

/-- Two distinct styles produce distinct style-qualified links: the hash is
an injective encoding and it sits between a fixed prefix and a fixed
suffix of the link. -/
theorem styleQualifiedLink_injective (o : LogFileOptions) {s t : IStyle}
    (h : styleQualifiedLink o s = styleQualifiedLink o t) : s = t := by
  unfold styleQualifiedLink getStyleHash at h
  exact string_append_left_cancel (string_append_right_cancel h)

/-- C5: for every table with geometry data and more than one style, the
worker generates exactly one row per style; row `i` carries the
style-qualified link of style `i` under the sequential label
`Visualization i+1`; distinct styles get distinct links; and only row 0
carries the source-table, destination-link and type columns, which are
blank in every later row. -/
theorem claim_C5_multi_style_rows (o : LogFileOptions) (exportDate : String)
    (hg : o.hasGeometryData = true) (hlen : 1 < o.styles.length)
    (hnd : o.styles.Nodup) :
    (indexSheetRows o exportDate).length = o.styles.length ∧
    (∀ (i : Nat) (s : IStyle), o.styles[i]? = some s →
      (indexSheetRows o exportDate)[i]? = some
        { values := [
            .stringValue o.driveFile.name,
            .stringValue (if i == 0 then tableLink o else ""),
            .stringValue (if i == 0 then fileLink o else ""),
            .stringValue (if i == 0 then fileType o else ""),
            .formulaValue ("=HYPERLINK(\"" ++ styleQualifiedLink o s ++
              "\", \"Visualization " ++ toString (i + 1) ++ "\")"),
            .stringValue exportDate ] }) ∧
    (∀ (i j : Nat) (s t : IStyle), i ≠ j → o.styles[i]? = some s →
      o.styles[j]? = some t →
      styleQualifiedLink o s ≠ styleQualifiedLink o t) := by
  have hpos : o.styles.length > 0 := by omega
  have hrows : indexSheetRows o exportDate =
      mapWithIndex
        (fun index style =>
          createRow o exportDate (some (styleQualifiedLink o style))
            (if o.styles.length > 1 then some index else none))
        0 o.styles := by
    simp [indexSheetRows, hg, hpos]
  refine ⟨?_, ?_, ?_⟩
  · rw [hrows, length_mapWithIndex]
  · intro i s hi
    rw [hrows, getElem?_mapWithIndex, hi]
    simp only [Option.map_some, if_pos hlen, Option.some.injEq]
    simp [createRow, Nat.zero_add]
  · intro i j s t hij hi ht heq
    obtain ⟨hi', hgi⟩ := List.getElem?_eq_some_iff.mp hi
    obtain ⟨hj', hgj⟩ := List.getElem?_eq_some_iff.mp ht
    have hst : s = t := styleQualifiedLink_injective o heq
    apply hij
    rw [← (hnd.getElem_inj_iff)]
    rw [hgi, hgj, hst]

/-- C5 (witness): the theorem evaluated on the two-style fixture. -/
theorem claim_C5_multi_style_rows_witness :
    exampleOptionsTwoStyles.hasGeometryData = true ∧
    1 < exampleOptionsTwoStyles.styles.length ∧
    exampleOptionsTwoStyles.styles.Nodup ∧
    ((indexSheetRows exampleOptionsTwoStyles "2019-12-03").length =
        exampleOptionsTwoStyles.styles.length ∧
      (∀ (i : Nat) (s : IStyle), exampleOptionsTwoStyles.styles[i]? = some s →
        (indexSheetRows exampleOptionsTwoStyles "2019-12-03")[i]? = some
          { values := [
              .stringValue exampleOptionsTwoStyles.driveFile.name,
              .stringValue (if i == 0 then tableLink exampleOptionsTwoStyles else ""),
              .stringValue (if i == 0 then fileLink exampleOptionsTwoStyles else ""),
              .stringValue (if i == 0 then fileType exampleOptionsTwoStyles else ""),
              .formulaValue ("=HYPERLINK(\"" ++
                styleQualifiedLink exampleOptionsTwoStyles s ++
                "\", \"Visualization " ++ toString (i + 1) ++ "\")"),
              .stringValue "2019-12-03" ] }) ∧
      (∀ (i j : Nat) (s t : IStyle), i ≠ j →
        exampleOptionsTwoStyles.styles[i]? = some s →
        exampleOptionsTwoStyles.styles[j]? = some t →
        styleQualifiedLink exampleOptionsTwoStyles s ≠
          styleQualifiedLink exampleOptionsTwoStyles t)) :=
  ⟨rfl, by decide, by decide,
    claim_C5_multi_style_rows exampleOptionsTwoStyles "2019-12-03" rfl
      (by decide) (by decide)⟩

/-- One worker emits the export-finished event exactly when its `isLast`
flag is set, in the success outcome and in the error outcome alike. -/
theorem countP_workerEvents (oc : Nat → Outcome) (sz : Nat → ℚ)
    (w : SaveTableOptions) :
    (workerEvents oc sz w).countP isExportFinish = if w.isLast then 1 else 0 := by
  cases hl : w.isLast <;> cases ho : oc w.tableId <;>
    simp [workerEvents, saveTableEvents, hl, ho, isExportFinish,
      List.countP_cons, List.countP_append]

/-- Summing the `isLast` indicator over the workers dispatched from a list
whose indices start at `k`: it is 1 precisely when the designated index `m`
falls within the dispatched index range. -/
theorem sum_isLast_indicator (e : String) (m : Nat) (l : List ITable) :
    ∀ k : Nat,
    ((mapWithIndex
        (fun index table =>
          ({ tableId := index + 1, table := table, exportId := e,
             isLast := index == m } : SaveTableOptions)) k l).map
      (fun w => if w.isLast then 1 else 0)).sum
      = if k ≤ m ∧ m < k + l.length then 1 else 0 := by
  induction l with
  | nil =>
    intro k
    have hno : ¬ (k ≤ m ∧ m < k) := by omega
    simp [mapWithIndex, hno]
  | cons t ts ih =>
    intro k
    simp only [mapWithIndex, List.map_cons, List.sum_cons, ih (k + 1)]
    by_cases hk : k = m
    · subst hk
      simp only [beq_self_eq_true, if_true]
      have h1 : ¬ (k + 1 ≤ k ∧ k < k + 1 + ts.length) := by omega
      have h2 : k ≤ k ∧ k < k + (ts.length + 1) := by omega
      simp [h1, h2, List.length_cons]
    · have hbeq : (k == m) = false := by
        simp [hk]
      simp only [hbeq, if_false, List.length_cons]
      have hiff : (k + 1 ≤ m ∧ m < k + 1 + ts.length) ↔
          (k ≤ m ∧ m < k + (ts.length + 1)) := by omega
      by_cases hc : k + 1 ≤ m ∧ m < k + 1 + ts.length
      · simp [hc, hiff.mp hc]
      · have hc' : ¬ (k ≤ m ∧ m < k + (ts.length + 1)) := fun h => hc (hiff.mpr h)
        simp [hc, hc']

/-- C1: for every export over a non-empty table list, any completion order
of the dispatched workers and any per-table outcomes, the export-finished
log event is emitted exactly once; a worker emits it exactly when its
`isLast` flag is set (in success and error outcomes alike); and the
`isLast` flag marks exactly the worker of the table at the last input
position. -/
theorem claim_C1_export_finished_once (exportId : String) (t0 : ITable)
    (ts : List ITable) (oc : Nat → Outcome) (sz : Nat → ℚ)
    (order : List SaveTableOptions)
    (hperm : order.Perm (dispatch exportId (t0 :: ts))) :
    (exportLogEvents oc sz order).countP isExportFinish = 1 ∧
    (∀ w ∈ dispatch exportId (t0 :: ts),
      (workerEvents oc sz w).countP isExportFinish = if w.isLast then 1 else 0) ∧
    (∀ w ∈ dispatch exportId (t0 :: ts),
      (w.isLast = true ↔ w.tableId = (t0 :: ts).length)) := by
  refine ⟨?_, fun w _ => countP_workerEvents oc sz w, ?_⟩
  · have hflat : (exportLogEvents oc sz order).countP isExportFinish =
        (order.map (fun w => (workerEvents oc sz w).countP isExportFinish)).sum := by
      rw [exportLogEvents, List.countP_flatten, List.map_map]
      rfl
    rw [hflat]
    have hsum := (hperm.map
      (fun w => (workerEvents oc sz w).countP isExportFinish)).sum_eq
    rw [hsum]
    have hcongr : (dispatch exportId (t0 :: ts)).map
        (fun w => (workerEvents oc sz w).countP isExportFinish) =
        (dispatch exportId (t0 :: ts)).map (fun w => if w.isLast then 1 else 0) :=
      List.map_congr_left (fun w _ => countP_workerEvents oc sz w)
    rw [hcongr, dispatch, sum_isLast_indicator]
    have hcond : 0 ≤ (t0 :: ts).length - 1 ∧
        (t0 :: ts).length - 1 < 0 + (t0 :: ts).length := by
      simp only [List.length_cons]
      omega
    simp [hcond]
  · intro w hw
    rw [dispatch] at hw
    obtain ⟨i, hi, rfl⟩ := mem_mapWithIndex.mp hw
    simp only [List.length_cons] at hi ⊢
    constructor
    · intro hbeq
      have : 0 + i = ts.length + 1 - 1 := by
        simpa using hbeq
      omega
    · intro htid
      have : i = ts.length := by omega
      simp [this]

/-- C1 (witness): two tables dispatched, the workers completing in reverse
input order, both succeeding — the export-finished event fires exactly
once, from the worker of the input-order-last table. -/
theorem claim_C1_export_finished_once_witness :
    ((dispatch "export-1" [exampleTableA, exampleTableB]).reverse).Perm
        (dispatch "export-1" [exampleTableA, exampleTableB]) ∧
    ((exportLogEvents allSuccess zeroSizes
        ((dispatch "export-1" [exampleTableA, exampleTableB]).reverse)).countP
          isExportFinish = 1 ∧
      (∀ w ∈ dispatch "export-1" [exampleTableA, exampleTableB],
        (workerEvents allSuccess zeroSizes w).countP isExportFinish =
          if w.isLast then 1 else 0) ∧
      (∀ w ∈ dispatch "export-1" [exampleTableA, exampleTableB],
        (w.isLast = true ↔
          w.tableId = ([exampleTableA, exampleTableB] : List ITable).length))) :=
  ⟨List.reverse_perm _,
    claim_C1_export_finished_once "export-1" exampleTableA [exampleTableB]
      allSuccess zeroSizes _ (List.reverse_perm _)⟩

end FusionTablesExport
